import Mathlib

/-!
Shallow embedding of the Mongo-backed store client in
`internal/store/db/mongo/store.go` of app-functions-sdk-go.

ObjectIDs (`primitive.ObjectID`) are modelled as `Nat`, with `0` playing the
role of `primitive.NilObjectID` (the unassigned value).  The driver-side
collection is a list of documents together with a counter supplying fresh
store-assigned ids; driver failures (network, decode, cursor) are injected
through an explicit `Driver` record, since they are environmental inputs of
the Go code.  Each client operation returns its Go results, the collection
state after the call, and the list of driver calls it issued (so that
"performs no store call" and "short-circuits before any network call" are
statable).
-/

namespace StoreMongo

/-- Modelled from the spec: `contracts.StoredObject` (its definition lives in
`internal/store/contracts`, which is not among the given sources; the spec's
data-model section lists exactly these fields). `Payload` is an opaque byte
sequence, modelled as `List Nat`. -/
structure StoredObject where
  ID : String
  AppServiceKey : String
  Payload : List Nat
  RetryCount : Int
  PipelinePosition : Int
  Version : String
  CorrelationID : String
  EventID : String
  EventChecksum : String
deriving DecidableEq, Repr, Inhabited

/-- Modelled from the spec: `models.StoredObject`, the store-native document
shape (package `internal/store/db/mongo/models` is not among the given
sources).  Field-for-field with the contract, plus the opaque `ObjectID`
(`_id`) and the correlation `UUID`.  The all-zero value is Go's zero value
`models.StoredObject{}` used by `Store`'s existence check. -/
structure MStoredObject where
  ObjectID : Nat
  UUID : String
  AppServiceKey : String
  Payload : List Nat
  RetryCount : Int
  PipelinePosition : Int
  Version : String
  CorrelationID : String
  EventID : String
  EventChecksum : String
deriving DecidableEq, Repr, Inhabited

/-- Go's zero value `models.StoredObject{}`. -/
def MStoredObject.zero : MStoredObject :=
  ⟨0, "", "", [], 0, 0, "", "", "", ""⟩

/-- Split a character list at every colon (codec helper). -/
def splitColon : List Char → List Char → List (List Char)
  | [], acc => [acc.reverse]
  | c :: cs, acc =>
    if c = ':' then acc.reverse :: splitColon cs []
    else splitColon cs (c :: acc)

/-- Parse a nonempty all-digit character list as a decimal number
(codec helper). -/
def charsToNatCore : List Char → Nat → Option Nat
  | [], n => some n
  | c :: cs, n =>
    if c.isDigit then charsToNatCore cs (n * 10 + (c.toNat - 48)) else none

/-- Parse a character list as a decimal number; `none` when empty or when a
non-digit occurs (codec helper). -/
def charsToNat (cs : List Char) : Option Nat :=
  if cs.isEmpty then none else charsToNatCore cs 0

/-- Modelled from the spec: the Identifier Codec's `Decode`
(`models.FromContractId`, not among the given sources).  The empty string is
valid and decodes to the zero opaque-id and a not-yet-assigned state; a string
without a separator is a bare correlation UUID (zero opaque-id); an
`opaque:uuid` pair decodes to both segments; anything else is a
malformed-identifier error. -/
def FromContractId (id : String) : Except String (Nat × String) :=
  if id = "" then .ok (0, "")
  else
    match splitColon id.data [] with
    | [u] => .ok (0, String.mk u)
    | [o, u] =>
      match charsToNat o with
      | some n => .ok (n, String.mk u)
      | none => .error "malformed identifier"
    | _ => .error "malformed identifier"

/-- Modelled from the spec: the Identifier Codec's `Encode`
(`models.ToContractId`), the `Decode` inverse: a bare UUID when the opaque-id
is unassigned, otherwise both segments. -/
def ToContractId (objID : Nat) (uuid : String) : String :=
  if objID = 0 then uuid else toString objID ++ ":" ++ uuid

/-- Model of `primitive.ObjectID.Hex()`: the hexadecimal rendering of the
opaque id, containing no UUID segment. -/
def objectIdHex (objID : Nat) : String :=
  String.mk (Nat.toDigits 16 objID)

/-- Modelled from the spec: `models.StoredObject.ToContract`, field-for-field,
reconstructing `ID` via the codec's `Encode`. -/
def MStoredObject.ToContract (m : MStoredObject) : StoredObject :=
  ⟨ToContractId m.ObjectID m.UUID, m.AppServiceKey, m.Payload, m.RetryCount,
    m.PipelinePosition, m.Version, m.CorrelationID, m.EventID, m.EventChecksum⟩

/-- Modelled from the spec: `models.StoredObject.FromContract`, decoding the
contract `ID` through the codec (a decode failure propagates) and copying the
remaining fields. -/
def MStoredObject.FromContract (o : StoredObject) : Except String MStoredObject :=
  match FromContractId o.ID with
  | .error e => .error e
  | .ok (objID, uuid) =>
    .ok ⟨objID, uuid, o.AppServiceKey, o.Payload, o.RetryCount,
      o.PipelinePosition, o.Version, o.CorrelationID, o.EventID, o.EventChecksum⟩

/-- The `bson.M` document `Store` builds: the `_id` entry is either absent
(`none`, store assigns the id) or present verbatim (`some objID`). -/
structure BsonDoc where
  objectID : Option Nat
  uuid : String
  appServiceKey : String
  payload : List Nat
  retryCount : Int
  pipelinePosition : Int
  version : String
  correlationID : String
  eventID : String
  eventChecksum : String
deriving DecidableEq, Repr

/-- The backing collection: stored documents plus the counter the store uses
to mint fresh opaque ids. -/
structure MongoState where
  docs : List MStoredObject
  nextOid : Nat
deriving DecidableEq, Repr

/-- Driver-environment faults injected into a call: `none` everywhere is a
healthy driver.  `findOneErr` covers both a failing `FindOne` and a failing
`SingleResult.Decode`; `decodeErrAt` makes `cursor.Decode` fail at the given
index of the matching documents. -/
structure Driver where
  findOneErr : Option String
  insertErr : Option String
  replaceErr : Option String
  updateErr : Option String
  deleteErr : Option String
  findErr : Option String
  decodeErrAt : Option (Nat × String)
  cursorErr : Option String
deriving DecidableEq, Repr

/-- The healthy driver: no injected faults. -/
def Driver.ok : Driver := ⟨none, none, none, none, none, none, none, none⟩

/-- One driver call issued by a client operation (the operation's network
footprint). -/
inductive Call where
  | findOneUuid (uuid : String)
  | insertOne (doc : BsonDoc)
  | replaceOne (objID : Nat) (m : MStoredObject)
  | updateRetryCount (objID : Nat) (count : Int)
  | deleteOne (objID : Nat)
deriving DecidableEq, Repr

/-- Driver model of `Collection.FindOne` on filter `{uuid: uuid}` followed by
`SingleResult.Decode(&m)`: on an injected fault or no matching document the
decode fails and `m` keeps Go's zero value; otherwise `m` is the first
matching document. -/
def findOneDecode (drv : Driver) (s : MongoState) (uuid : String) : MStoredObject :=
  match drv.findOneErr with
  | some _ => MStoredObject.zero
  | none =>
    match s.docs.find? (fun d => d.UUID == uuid) with
    | some d => d
    | none => MStoredObject.zero

/-- Materialize a `bson.M` document as a stored document carrying `objID`. -/
def BsonDoc.withOid (d : BsonDoc) (objID : Nat) : MStoredObject :=
  ⟨objID, d.uuid, d.appServiceKey, d.payload, d.retryCount,
    d.pipelinePosition, d.version, d.correlationID, d.eventID, d.eventChecksum⟩

/-- Driver model of `Collection.InsertOne`: a document without `_id` gets the
next store-assigned id; a document with `_id` is inserted under that id, with
Mongo's unique-`_id` index rejecting a live duplicate.  Returns the inserted
id and the new state. -/
def insertOne (drv : Driver) (s : MongoState) (d : BsonDoc) :
    Except String (Nat × MongoState) :=
  match drv.insertErr with
  | some e => .error e
  | none =>
    match d.objectID with
    | none =>
      .ok (s.nextOid, ⟨s.docs ++ [d.withOid s.nextOid], s.nextOid + 1⟩)
    | some objID =>
      if s.docs.any (fun m => m.ObjectID == objID) then .error "duplicate key"
      else .ok (objID, ⟨s.docs ++ [d.withOid objID], s.nextOid⟩)

/-- `Client.Store` (store.go lines 48-103): decode the contract id; on the
unassigned path look the UUID up, reject a duplicate, and insert a document
without `_id`; on the assigned path insert a document carrying `_id`
verbatim; return the inserted id's hex. -/
def Store (drv : Driver) (s : MongoState) (o : StoredObject) :
    Except String String × MongoState × List Call :=
  match FromContractId o.ID with
  | .error e => (.error e, s, [])
  | .ok (objID, uuid) =>
    if objID = 0 then
      let m := findOneDecode drv s uuid
      if m ≠ MStoredObject.zero then
        (.error "object exists in database", s, [.findOneUuid uuid])
      else
        let doc : BsonDoc :=
          ⟨none, uuid, o.AppServiceKey, o.Payload, o.RetryCount,
            o.PipelinePosition, o.Version, o.CorrelationID, o.EventID, o.EventChecksum⟩
        match insertOne drv s doc with
        | .error e => (.error e, s, [.findOneUuid uuid, .insertOne doc])
        | .ok (oid, s') =>
          (.ok (objectIdHex oid), s', [.findOneUuid uuid, .insertOne doc])
    else
      let doc : BsonDoc :=
        ⟨some objID, uuid, o.AppServiceKey, o.Payload, o.RetryCount,
          o.PipelinePosition, o.Version, o.CorrelationID, o.EventID, o.EventChecksum⟩
      match insertOne drv s doc with
      | .error e => (.error e, s, [.insertOne doc])
      | .ok (oid, s') => (.ok (objectIdHex oid), s', [.insertOne doc])

/-- Driver model of `Collection.ReplaceOne` on filter `{_id: objID}`: replace
the first (unique-index: only) matching document; matched-zero is success. -/
def replaceFirst (docs : List MStoredObject) (objID : Nat) (m : MStoredObject) :
    List MStoredObject :=
  match docs with
  | [] => []
  | d :: ds => if d.ObjectID = objID then m :: ds else d :: replaceFirst ds objID m

/-- Driver model of `Collection.UpdateOne` with `{$set: {retryCount: count}}`
on filter `{_id: objID}`: set only that field of the first matching document;
matched-zero is success. -/
def updateRetryFirst (docs : List MStoredObject) (objID : Nat) (count : Int) :
    List MStoredObject :=
  match docs with
  | [] => []
  | d :: ds =>
    if d.ObjectID = objID then { d with RetryCount := count } :: ds
    else d :: updateRetryFirst ds objID count

/-- Driver model of `Collection.DeleteOne` on filter `{_id: objID}`: delete
the first matching document; matched-zero is success. -/
def deleteFirst (docs : List MStoredObject) (objID : Nat) : List MStoredObject :=
  match docs with
  | [] => []
  | d :: ds => if d.ObjectID = objID then ds else d :: deleteFirst ds objID

/-- `Client.RetrieveFromStore` (store.go lines 106-140): find all documents
matching the appServiceKey, decode each while iterating, check the cursor,
map to contracts.  Mirrors Go's `([]StoredObject, error)` pair: every error
path returns `nil` objects. -/
def RetrieveFromStore (drv : Driver) (s : MongoState) (appServiceKey : String) :
    List StoredObject × Option String :=
  match drv.findErr with
  | some e => ([], some e)
  | none =>
    let found := s.docs.filter (fun d => d.AppServiceKey == appServiceKey)
    match drv.decodeErrAt with
    | some (i, e) =>
      if i < found.length then ([], some e)
      else
        match drv.cursorErr with
        | some e2 => ([], some e2)
        | none => (found.map MStoredObject.ToContract, none)
    | none =>
      match drv.cursorErr with
      | some e2 => ([], some e2)
      | none => (found.map MStoredObject.ToContract, none)

/-- `Client.Update` (store.go lines 143-165): reject an empty `ID`, build the
model from the contract (decoding the id), and replace the document keyed by
the decoded opaque id. -/
def Update (drv : Driver) (s : MongoState) (o : StoredObject) :
    Except String Unit × MongoState × List Call :=
  if o.ID = "" then
    (.error "update argument object does not have an UUID", s, [])
  else
    match MStoredObject.FromContract o with
    | .error e => (.error e, s, [])
    | .ok model =>
      match drv.replaceErr with
      | some e => (.error e, s, [.replaceOne model.ObjectID model])
      | none =>
        (.ok (), ⟨replaceFirst s.docs model.ObjectID model, s.nextOid⟩,
          [.replaceOne model.ObjectID model])

/-- `Client.UpdateRetryCount` (store.go lines 168-190): reject an empty id,
decode it, and `$set` only the retryCount of the document keyed by the
decoded opaque id (the UUID segment is dropped). -/
def UpdateRetryCount (drv : Driver) (s : MongoState) (id : String) (count : Int) :
    Except String Unit × MongoState × List Call :=
  if id = "" then (.error "no UUID provided", s, [])
  else
    match FromContractId id with
    | .error e => (.error e, s, [])
    | .ok (objID, _) =>
      match drv.updateErr with
      | some e => (.error e, s, [.updateRetryCount objID count])
      | none =>
        (.ok (), ⟨updateRetryFirst s.docs objID count, s.nextOid⟩,
          [.updateRetryCount objID count])

/-- `Client.RemoveFromStore` (store.go lines 193-214): reject an empty id,
decode it, and delete the document keyed by the decoded opaque id (the UUID
segment is dropped). -/
def RemoveFromStore (drv : Driver) (s : MongoState) (id : String) :
    Except String Unit × MongoState × List Call :=
  if id = "" then (.error "no UUID provided", s, [])
  else
    match FromContractId id with
    | .error e => (.error e, s, [])
    | .ok (objID, _) =>
      match drv.deleteErr with
      | some e => (.error e, s, [.deleteOne objID])
      | none => (.ok (), ⟨deleteFirst s.docs objID, s.nextOid⟩, [.deleteOne objID])

/-- The client value `NewClient` returns on success (timeout plus the live
handles; the handles are modelled by the database name). -/
structure MClient where
  timeout : Nat
  database : String
deriving DecidableEq, Repr

/-- Outcome of the race in `NewClient` between the deadline context and the
background connect-and-probe task: either `ctx.Done()` fires first (with the
error the background task had recorded by then, if any), or the task signals
success on `notify` with an established database handle. -/
inductive BootEvent where
  | ctxDone (recorded : Option String)
  | notify (database : String)
deriving DecidableEq, Repr

/-- The `select` at the end of `NewClient` (store.go lines 261-272): when the
deadline context wins, return the recorded business-logic error if there is
one and otherwise the context's own timeout error; when the notify channel
wins, return the ready client. -/
def NewClientSelect (timeout : Nat) (ev : BootEvent) :
    Except String MClient :=
  match ev with
  | .ctxDone recorded =>
    match recorded with
    | some e => .error e
    | none => .error "context deadline exceeded"
  | .notify db => .ok ⟨timeout, db⟩

/-- Well-formedness the backing store maintains: the fresh-id counter is
positive and every stored document carries a nonzero (assigned) opaque id. -/
def MongoState.wf (s : MongoState) : Prop :=
  0 < s.nextOid ∧ ∀ d ∈ s.docs, d.ObjectID ≠ 0

instance (s : MongoState) : Decidable s.wf := by
  unfold MongoState.wf; infer_instance

/-! Helper lemmas. -/

lemma toDigitsCore_ne_nil (b : Nat) :
    ∀ (fuel n : Nat) (ds : List Char), ds ≠ [] → Nat.toDigitsCore b fuel n ds ≠ [] := by
  intro fuel
  induction fuel with
  | zero => intro n ds h; simpa [Nat.toDigitsCore] using h
  | succ fuel ih =>
    intro n ds _
    unfold Nat.toDigitsCore
    by_cases hb : n / b = 0
    · simp [hb]
    · simpa [hb] using ih (n / b) _ (by simp)

lemma toDigits_ne_nil (b n : Nat) : Nat.toDigits b n ≠ [] := by
  unfold Nat.toDigits Nat.toDigitsCore
  by_cases hb : n / b = 0
  · simp [hb]
  · simpa [hb] using toDigitsCore_ne_nil b n (n / b) _ (by simp)

lemma objectIdHex_ne_empty (n : Nat) : objectIdHex n ≠ "" := by
  unfold objectIdHex
  intro h
  exact toDigits_ne_nil 16 n (congrArg String.data h)

/-- A UUID present among the documents makes `find?` return a witness. -/
lemma find_uuid_of_mem (s : MongoState) (u : String)
    (hex : ∃ d ∈ s.docs, d.UUID = u) :
    ∃ d, s.docs.find? (fun d => d.UUID == u) = some d ∧ d ∈ s.docs ∧ d.UUID = u := by
  cases hfind : s.docs.find? (fun d => d.UUID == u) with
  | none =>
    rw [List.find?_eq_none] at hfind
    obtain ⟨d, hd, hu⟩ := hex
    exact absurd (by simpa using hu) (by simpa using hfind d hd)
  | some d =>
    refine ⟨d, rfl, List.mem_of_find?_eq_some hfind, ?_⟩
    simpa using List.find?_some hfind

/-- `Store` on the unassigned path with a successful lookup that hits an
existing (well-formed) document: duplicate rejection, nothing inserted. -/
lemma Store_dup (drv : Driver) (s : MongoState) (o : StoredObject) (u : String)
    (hdrv : drv.findOneErr = none) (hwf : s.wf)
    (hdec : FromContractId o.ID = .ok (0, u))
    (hex : ∃ d ∈ s.docs, d.UUID = u) :
    Store drv s o = (.error "object exists in database", s, [.findOneUuid u]) := by
  obtain ⟨d, hfind, hmem, hu⟩ := find_uuid_of_mem s u hex
  have hdne : d ≠ MStoredObject.zero := by
    intro hEq
    exact hwf.2 d hmem (by rw [hEq]; rfl)
  unfold Store
  rw [hdec]
  have hm : findOneDecode drv s u = d := by
    unfold findOneDecode
    rw [hdrv, hfind]
  simp [hm, hdne]

/-- The document `Store` builds from a contract on the unassigned path. -/
def unassignedDoc (u : String) (o : StoredObject) : BsonDoc :=
  ⟨none, u, o.AppServiceKey, o.Payload, o.RetryCount, o.PipelinePosition,
    o.Version, o.CorrelationID, o.EventID, o.EventChecksum⟩

/-- `Store` on the unassigned path when the existence check sees the zero
value (no document found, or the lookup/decode failed): a document without
`_id` is inserted and the store-assigned id's hex is returned. -/
lemma Store_unassigned_insert (drv : Driver) (s : MongoState) (o : StoredObject)
    (u : String) (hm : findOneDecode drv s u = MStoredObject.zero)
    (hins : drv.insertErr = none)
    (hdec : FromContractId o.ID = .ok (0, u)) :
    Store drv s o =
      (.ok (objectIdHex s.nextOid),
        ⟨s.docs ++ [(unassignedDoc u o).withOid s.nextOid], s.nextOid + 1⟩,
        [.findOneUuid u, .insertOne (unassignedDoc u o)]) := by
  unfold Store
  rw [hdec]
  simp only [reduceIte, hm, ne_eq, not_true_eq_false, ite_false]
  unfold insertOne
  rw [hins]
  rfl

/-- When no stored document carries the UUID, the existence check sees the
zero value. -/
lemma findOneDecode_of_not_mem (drv : Driver) (s : MongoState) (u : String)
    (hnone : ∀ d ∈ s.docs, d.UUID ≠ u) :
    findOneDecode drv s u = MStoredObject.zero := by
  unfold findOneDecode
  have hfind : s.docs.find? (fun d => d.UUID == u) = none := by
    rw [List.find?_eq_none]
    intro d hd
    simpa using hnone d hd
  rw [hfind]
  cases drv.findOneErr <;> rfl

/-! Concrete test fixtures. -/

/-- A contract object carrying only a correlation UUID (no opaque-id). -/
def oU : StoredObject := ⟨"u1", "svcA", [1, 2], 0, 0, "1", "", "", ""⟩

/-- A contract object whose id carries an assigned opaque-id. -/
def oAssigned : StoredObject := ⟨"7:u2", "svcB", [3], 0, 0, "1", "", "", ""⟩

/-- The stored document `Store` creates for `oU` in the empty collection. -/
def dA : MStoredObject := ⟨1, "u1", "svcA", [1, 2], 0, 0, "1", "", "", ""⟩

/-! Claim theorems. -/

/-- C1: on the unassigned path, a UUID that already matches a stored document
makes `Store` fail with the duplicate-object error and insert nothing; and
starting from a state with no document for the UUID, the first of two
identical `Store` calls succeeds with a non-empty id, the second fails with
the duplicate-object error leaving the state untouched, and exactly one
document for that UUID exists afterwards. -/
theorem Store_duplicate_uuid_rejected (s : MongoState) (o : StoredObject)
    (u : String) (hwf : s.wf) (hdec : FromContractId o.ID = .ok (0, u)) :
    ((∃ d ∈ s.docs, d.UUID = u) →
      Store Driver.ok s o = (.error "object exists in database", s, [.findOneUuid u]))
    ∧ ((∀ d ∈ s.docs, d.UUID ≠ u) →
      ∃ id1, (Store Driver.ok s o).1 = .ok id1 ∧ id1 ≠ "" ∧
        (Store Driver.ok (Store Driver.ok s o).2.1 o).1 =
          .error "object exists in database" ∧
        (Store Driver.ok (Store Driver.ok s o).2.1 o).2.1 =
          (Store Driver.ok s o).2.1 ∧
        (((Store Driver.ok s o).2.1).docs.filter (fun d => d.UUID == u)).length = 1) := by
  constructor
  · intro hex
    exact Store_dup Driver.ok s o u rfl hwf hdec hex
  · intro hnone
    have h1 := Store_unassigned_insert Driver.ok s o u
      (findOneDecode_of_not_mem Driver.ok s u hnone) rfl hdec
    set s1 : MongoState :=
      ⟨s.docs ++ [(unassignedDoc u o).withOid s.nextOid], s.nextOid + 1⟩ with hs1
    have hwf1 : s1.wf := by
      constructor
      · exact Nat.succ_pos _
      · intro d hd
        rcases List.mem_append.1 hd with h | h
        · exact hwf.2 d h
        · have hEq : d = (unassignedDoc u o).withOid s.nextOid := by simpa using h
          rw [hEq]
          have hpos := hwf.1
          simp only [BsonDoc.withOid, unassignedDoc]
          omega
    have hmem1 : ∃ d ∈ s1.docs, d.UUID = u := by
      refine ⟨(unassignedDoc u o).withOid s.nextOid, ?_, rfl⟩
      simp [hs1]
    have h2 := Store_dup Driver.ok s1 o u rfl hwf1 hdec hmem1
    refine ⟨objectIdHex s.nextOid, by rw [h1], objectIdHex_ne_empty _, ?_, ?_, ?_⟩
    · rw [h1]
      show (Store Driver.ok s1 o).1 = _
      rw [h2]
    · rw [h1]
      show (Store Driver.ok s1 o).2.1 = s1
      rw [h2]
    · rw [h1]
      show (s1.docs.filter (fun d => d.UUID == u)).length = 1
      rw [hs1]
      simp only [List.filter_append]
      have hfl : s.docs.filter (fun d => d.UUID == u) = [] := by
        rw [List.filter_eq_nil_iff]
        intro d hd
        simpa using hnone d hd
      rw [hfl]
      simp [unassignedDoc, BsonDoc.withOid]

/-- C1 witness: the duplicate-rejection conclusion at a one-document
collection, and the two-call scenario starting from the empty collection. -/
theorem Store_duplicate_uuid_rejected_witness :
    (Store Driver.ok ⟨[dA], 2⟩ oU =
      (.error "object exists in database", ⟨[dA], 2⟩, [.findOneUuid "u1"]))
    ∧ (∃ id1, (Store Driver.ok ⟨[], 1⟩ oU).1 = .ok id1 ∧ id1 ≠ "" ∧
        (Store Driver.ok (Store Driver.ok ⟨[], 1⟩ oU).2.1 oU).1 =
          .error "object exists in database" ∧
        (Store Driver.ok (Store Driver.ok ⟨[], 1⟩ oU).2.1 oU).2.1 =
          (Store Driver.ok ⟨[], 1⟩ oU).2.1 ∧
        (((Store Driver.ok ⟨[], 1⟩ oU).2.1).docs.filter
          (fun d => d.UUID == "u1")).length = 1) := by
  constructor
  · exact (Store_duplicate_uuid_rejected ⟨[dA], 2⟩ oU "u1" (by decide) rfl).1
      ⟨dA, by simp, rfl⟩
  · exact (Store_duplicate_uuid_rejected ⟨[], 1⟩ oU "u1" (by decide) rfl).2
      (by simp)

/-- C2 counterexample: starting from the empty collection, `Store` on a
UUID-only id succeeds and returns the hex of the store-assigned opaque-id
`1`, which differs from the codec's encoding of that opaque-id together with
the UUID. -/
theorem Store_composite_return_counterexample :
    FromContractId oU.ID = .ok (0, "u1")
    ∧ (Store Driver.ok ⟨[], 1⟩ oU).1 = .ok (objectIdHex 1)
    ∧ objectIdHex 1 ≠ ToContractId 1 "u1" := by
  refine ⟨rfl, rfl, by decide⟩

/-- C2 amended: on the unassigned path with a clean lookup and a successful
insertion, `Store` returns the hex rendering of the store-assigned opaque-id
alone (the UUID is not encoded into the returned identifier). -/
theorem Store_returns_assigned_hex (drv : Driver) (s : MongoState)
    (o : StoredObject) (u : String)
    (hfe : drv.findOneErr = none) (hins : drv.insertErr = none)
    (hdec : FromContractId o.ID = .ok (0, u))
    (hnone : ∀ d ∈ s.docs, d.UUID ≠ u) :
    Store drv s o =
      (.ok (objectIdHex s.nextOid),
        ⟨s.docs ++ [(unassignedDoc u o).withOid s.nextOid], s.nextOid + 1⟩,
        [.findOneUuid u, .insertOne (unassignedDoc u o)]) := by
  exact Store_unassigned_insert drv s o u
    (findOneDecode_of_not_mem drv s u hnone) hins hdec

/-- C2 amended witness: the concrete first insertion into the empty
collection. -/
theorem Store_returns_assigned_hex_witness :
    Store Driver.ok ⟨[], 1⟩ oU =
      (.ok (objectIdHex 1), ⟨[dA], 2⟩,
        [.findOneUuid "u1", .insertOne (unassignedDoc "u1" oU)]) := by
  have h := Store_returns_assigned_hex Driver.ok ⟨[], 1⟩ oU "u1" rfl rfl rfl
    (by simp)
  simpa [dA, oU, unassignedDoc, BsonDoc.withOid] using h

/-- C3: when the decoded opaque-id is assigned (nonzero), `Store`'s only
driver call — against every state and driver — is the insertion of a document
carrying that `_id` verbatim (in particular no existence lookup precedes it);
when it is unassigned and the lookup sees no existing document, the inserted
document omits the `_id` field entirely (`objectID = none`). -/
theorem Store_document_id_field (drv : Driver) (s : MongoState)
    (o : StoredObject) (objID : Nat) (u : String)
    (hdec : FromContractId o.ID = .ok (objID, u)) :
    (objID ≠ 0 →
      (Store drv s o).2.2 =
        [.insertOne ⟨some objID, u, o.AppServiceKey, o.Payload, o.RetryCount,
          o.PipelinePosition, o.Version, o.CorrelationID, o.EventID, o.EventChecksum⟩])
    ∧ (objID = 0 → drv.findOneErr = none → (∀ d ∈ s.docs, d.UUID ≠ u) →
      (Store drv s o).2.2 =
        [.findOneUuid u,
          .insertOne ⟨none, u, o.AppServiceKey, o.Payload, o.RetryCount,
            o.PipelinePosition, o.Version, o.CorrelationID, o.EventID, o.EventChecksum⟩]) := by
  constructor
  · intro hne
    unfold Store
    rw [hdec]
    simp only [hne, ite_false]
    generalize insertOne drv s _ = r
    rcases r with e | ⟨oid, s'⟩ <;> rfl
  · intro hz _ hnone
    subst hz
    have hm := findOneDecode_of_not_mem drv s u hnone
    unfold Store
    rw [hdec]
    simp only [reduceIte, hm, ne_eq, not_true_eq_false, ite_false]
    generalize insertOne drv s _ = r
    rcases r with e | ⟨oid, s'⟩ <;> rfl

/-- C3 witness: the assigned-path trace on a restore-style id `7:u2`, and the
unassigned-path trace on a UUID-only id, both from the empty collection. -/
theorem Store_document_id_field_witness :
    (Store Driver.ok ⟨[], 1⟩ oAssigned).2.2 =
      [.insertOne ⟨some 7, "u2", "svcB", [3], 0, 0, "1", "", "", ""⟩]
    ∧ (Store Driver.ok ⟨[], 1⟩ oU).2.2 =
      [.findOneUuid "u1",
        .insertOne ⟨none, "u1", "svcA", [1, 2], 0, 0, "1", "", "", ""⟩] := by
  constructor
  · exact (Store_document_id_field Driver.ok ⟨[], 1⟩ oAssigned 7 "u2" rfl).1
      (by decide)
  · exact (Store_document_id_field Driver.ok ⟨[], 1⟩ oU 0 "u1" rfl).2 rfl rfl
      (by simp)

/-- C4: when the deadline context wins the race in `NewClient`, the returned
error is the error the background connect-and-probe task had recorded if
there is one and the context's timeout error otherwise, and no client value
is returned in either case. -/
theorem NewClient_deadline_error_selection (t : Nat) (recorded : Option String) :
    NewClientSelect t (.ctxDone recorded) =
      .error (recorded.getD "context deadline exceeded")
    ∧ ∀ c : MClient, NewClientSelect t (.ctxDone recorded) ≠ .ok c := by
  cases recorded <;> simp [NewClientSelect]

/-- C5: `Update` on an object with an empty `ID` fails with the
missing-identifier error, leaves the collection untouched, and issues no
driver call. -/
theorem Update_empty_id_rejected (drv : Driver) (s : MongoState)
    (o : StoredObject) (h : o.ID = "") :
    Update drv s o = (.error "update argument object does not have an UUID", s, []) := by
  unfold Update
  simp [h]

/-- C5 witness: a concrete no-id object against a one-document collection. -/
theorem Update_empty_id_rejected_witness :
    Update Driver.ok ⟨[dA], 2⟩ ⟨"", "svcA", [9], 1, 0, "1", "", "", ""⟩ =
      (.error "update argument object does not have an UUID", ⟨[dA], 2⟩, []) :=
  Update_empty_id_rejected Driver.ok ⟨[dA], 2⟩ _ rfl

/-- C6: `RetrieveFromStore` is all-or-nothing: whenever it reports an error
the returned object list is empty; a connection, in-range decode, or cursor
fault surfaces its own message with no objects; and with no fault it returns
one contract per matching document and no error. -/
theorem Retrieve_all_or_nothing (drv : Driver) (s : MongoState) (k : String) :
    ((RetrieveFromStore drv s k).2.isSome → (RetrieveFromStore drv s k).1 = [])
    ∧ (∀ e, drv.findErr = some e → RetrieveFromStore drv s k = ([], some e))
    ∧ (∀ i e, drv.findErr = none → drv.decodeErrAt = some (i, e) →
        i < (s.docs.filter (fun d => d.AppServiceKey == k)).length →
        RetrieveFromStore drv s k = ([], some e))
    ∧ (∀ e, drv.findErr = none → drv.decodeErrAt = none → drv.cursorErr = some e →
        RetrieveFromStore drv s k = ([], some e))
    ∧ (drv.findErr = none → drv.decodeErrAt = none → drv.cursorErr = none →
      RetrieveFromStore drv s k =
        ((s.docs.filter (fun d => d.AppServiceKey == k)).map MStoredObject.ToContract,
          none)) := by
  cases hf : drv.findErr with
  | some e => simp [RetrieveFromStore, hf]
  | none =>
    cases hd : drv.decodeErrAt with
    | some p =>
      rcases p with ⟨i, e⟩
      by_cases hi : i < (s.docs.filter (fun d => d.AppServiceKey == k)).length
      · simp [RetrieveFromStore, hf, hd, hi]
      · cases hc : drv.cursorErr <;>
          · simp [RetrieveFromStore, hf, hd, hi, hc]
            try omega
    | none => cases hc : drv.cursorErr <;> simp [RetrieveFromStore, hf, hd, hc]

/-- C6 witness: a decode fault on a one-document collection discards the
partial results and surfaces the fault, and the healthy driver returns the
matching document. -/
theorem Retrieve_all_or_nothing_witness :
    RetrieveFromStore ⟨none, none, none, none, none, none, some (0, "decode failed"), none⟩
        ⟨[dA], 2⟩ "svcA" = ([], some "decode failed")
    ∧ RetrieveFromStore Driver.ok ⟨[dA], 2⟩ "svcA" = ([dA.ToContract], none) := by
  constructor
  · exact (Retrieve_all_or_nothing
      ⟨none, none, none, none, none, none, some (0, "decode failed"), none⟩
      ⟨[dA], 2⟩ "svcA").2.2.1 0 "decode failed" rfl rfl (by decide)
  · have h := (Retrieve_all_or_nothing Driver.ok ⟨[dA], 2⟩ "svcA").2.2.2.2 rfl rfl rfl
    simpa using h

/-- Every document is either kept unchanged by `updateRetryFirst` or, when it
is the targeted one, changed only in its `RetryCount` field. -/
lemma updateRetryFirst_forall2 (docs : List MStoredObject) (objID : Nat) (count : Int) :
    List.Forall₂
      (fun d d' => d' = d ∨ (d.ObjectID = objID ∧ d' = { d with RetryCount := count }))
      docs (updateRetryFirst docs objID count) := by
  induction docs with
  | nil => exact List.Forall₂.nil
  | cons d ds ih =>
    unfold updateRetryFirst
    by_cases h : d.ObjectID = objID
    · rw [if_pos h]
      refine List.Forall₂.cons (Or.inr ⟨h, rfl⟩) ?_
      exact List.forall₂_same.2 (fun x _ => Or.inl rfl)
    · rw [if_neg h]
      exact List.Forall₂.cons (Or.inl rfl) ih

/-- With no document carrying the opaque id, `updateRetryFirst` is the
identity. -/
lemma updateRetryFirst_no_match (docs : List MStoredObject) (objID : Nat)
    (count : Int) (h : ∀ d ∈ docs, d.ObjectID ≠ objID) :
    updateRetryFirst docs objID count = docs := by
  induction docs with
  | nil => rfl
  | cons d ds ih =>
    unfold updateRetryFirst
    rw [if_neg (h d (List.mem_cons_self d ds))]
    rw [ih (fun x hx => h x (List.mem_cons_of_mem d hx))]

/-- C7: `UpdateRetryCount` with an empty id fails with the
missing-identifier error issuing no call; with a well-formed id and a clean
driver it succeeds, its only effect is `updateRetryFirst` on the document
keyed by the decoded opaque-id — each document either unchanged or changed
only in `RetryCount` — and when no document matches it still succeeds with
the collection unchanged. -/
theorem UpdateRetryCount_partial_update (drv : Driver) (s : MongoState)
    (id : String) (count : Int) (objID : Nat) (u : String)
    (hdrv : drv.updateErr = none) :
    (UpdateRetryCount drv s "" count = (.error "no UUID provided", s, []))
    ∧ (id ≠ "" → FromContractId id = .ok (objID, u) →
      UpdateRetryCount drv s id count =
        (.ok (), ⟨updateRetryFirst s.docs objID count, s.nextOid⟩,
          [.updateRetryCount objID count])
      ∧ List.Forall₂
          (fun d d' => d' = d ∨ (d.ObjectID = objID ∧ d' = { d with RetryCount := count }))
          s.docs (updateRetryFirst s.docs objID count)
      ∧ ((∀ d ∈ s.docs, d.ObjectID ≠ objID) →
          updateRetryFirst s.docs objID count = s.docs)) := by
  constructor
  · rfl
  · intro hne hdec
    refine ⟨?_, updateRetryFirst_forall2 s.docs objID count,
      updateRetryFirst_no_match s.docs objID count⟩
    unfold UpdateRetryCount
    rw [if_neg hne, hdec, hdrv]

/-- C7 witness: updating the retry count of the stored document through a
composite id whose UUID segment is `zzz`, and the empty-id rejection. -/
theorem UpdateRetryCount_partial_update_witness :
    (UpdateRetryCount Driver.ok ⟨[dA], 2⟩ "" 3 = (.error "no UUID provided", ⟨[dA], 2⟩, []))
    ∧ UpdateRetryCount Driver.ok ⟨[dA], 2⟩ "1:zzz" 3 =
        (.ok (), ⟨[⟨1, "u1", "svcA", [1, 2], 3, 0, "1", "", "", ""⟩], 2⟩,
          [.updateRetryCount 1 3]) := by
  have h := UpdateRetryCount_partial_update Driver.ok ⟨[dA], 2⟩ "1:zzz" 3 1 "zzz" rfl
  refine ⟨h.1, ?_⟩
  have h2 := (h.2 (by decide) rfl).1
  rw [h2]
  simp [updateRetryFirst, dA]

/-- C8: for `Store`, `Update`, `UpdateRetryCount` and `RemoveFromStore`, an
identifier that fails to decode makes the operation return the decode error
with the collection untouched and no driver call issued; and a driver-level
failure on the subsequent call is returned to the caller verbatim. -/
theorem decode_short_circuit (drv : Driver) (s : MongoState) (o : StoredObject)
    (id : String) (count : Int) (e : String) (objID : Nat) (u : String) :
    (FromContractId o.ID = .error e → Store drv s o = (.error e, s, []))
    ∧ (o.ID ≠ "" → FromContractId o.ID = .error e →
        Update drv s o = (.error e, s, []))
    ∧ (id ≠ "" → FromContractId id = .error e →
        UpdateRetryCount drv s id count = (.error e, s, [])
        ∧ RemoveFromStore drv s id = (.error e, s, []))
    ∧ (FromContractId o.ID = .ok (objID, u) → objID ≠ 0 → drv.insertErr = some e →
        (Store drv s o).1 = .error e)
    ∧ (o.ID ≠ "" → FromContractId o.ID = .ok (objID, u) → drv.replaceErr = some e →
        (Update drv s o).1 = .error e)
    ∧ (id ≠ "" → FromContractId id = .ok (objID, u) → drv.updateErr = some e →
        (UpdateRetryCount drv s id count).1 = .error e)
    ∧ (id ≠ "" → FromContractId id = .ok (objID, u) → drv.deleteErr = some e →
        (RemoveFromStore drv s id).1 = .error e) := by
  refine ⟨?_, ?_, ?_, ?_, ?_, ?_, ?_⟩
  · intro hdec
    unfold Store
    rw [hdec]
  · intro hne hdec
    unfold Update
    rw [if_neg hne]
    unfold MStoredObject.FromContract
    rw [hdec]
  · intro hne hdec
    constructor
    · unfold UpdateRetryCount
      rw [if_neg hne, hdec]
    · unfold RemoveFromStore
      rw [if_neg hne, hdec]
  · intro hdec hnz hins
    unfold Store
    rw [hdec]
    simp only [hnz, ite_false]
    unfold insertOne
    rw [hins]
  · intro hne hdec hrep
    unfold Update
    rw [if_neg hne]
    unfold MStoredObject.FromContract
    rw [hdec, hrep]
  · intro hne hdec hupd
    unfold UpdateRetryCount
    rw [if_neg hne, hdec, hupd]
  · intro hne hdec hdel
    unfold RemoveFromStore
    rw [if_neg hne, hdec, hdel]

/-- A driver failing every mutation with the same message. -/
def drvBoom : Driver :=
  ⟨none, some "boom", some "boom", some "boom", some "boom", none, none, none⟩

/-- C8 witness: the malformed id `x:y` short-circuits every operation with
the decode error against an untouched empty collection and empty call trace,
and injected driver failures surface verbatim behind well-formed ids. -/
theorem decode_short_circuit_witness :
    (Store drvBoom ⟨[], 1⟩ ⟨"x:y", "svcA", [], 0, 0, "1", "", "", ""⟩ =
      (.error "malformed identifier", ⟨[], 1⟩, []))
    ∧ (Update drvBoom ⟨[], 1⟩ ⟨"x:y", "svcA", [], 0, 0, "1", "", "", ""⟩ =
      (.error "malformed identifier", ⟨[], 1⟩, []))
    ∧ (UpdateRetryCount drvBoom ⟨[], 1⟩ "x:y" 3 =
      (.error "malformed identifier", ⟨[], 1⟩, []))
    ∧ (RemoveFromStore drvBoom ⟨[], 1⟩ "x:y" =
      (.error "malformed identifier", ⟨[], 1⟩, []))
    ∧ ((Store drvBoom ⟨[], 1⟩ oAssigned).1 = .error "boom")
    ∧ ((Update drvBoom ⟨[], 1⟩ oAssigned).1 = .error "boom")
    ∧ ((UpdateRetryCount drvBoom ⟨[], 1⟩ "1:zzz" 3).1 = .error "boom")
    ∧ ((RemoveFromStore drvBoom ⟨[], 1⟩ "1:zzz").1 = .error "boom") := by
  have hbad := decode_short_circuit drvBoom ⟨[], 1⟩
    ⟨"x:y", "svcA", [], 0, 0, "1", "", "", ""⟩ "x:y" 3 "malformed identifier" 0 ""
  have hA := decode_short_circuit drvBoom ⟨[], 1⟩ oAssigned "1:zzz" 3 "boom" 7 "u2"
  have hZ := decode_short_circuit drvBoom ⟨[], 1⟩ oAssigned "1:zzz" 3 "boom" 1 "zzz"
  refine ⟨hbad.1 rfl, hbad.2.1 (by decide) rfl, (hbad.2.2.1 (by decide) rfl).1,
    (hbad.2.2.1 (by decide) rfl).2, hA.2.2.2.1 rfl (by decide) rfl,
    hA.2.2.2.2.1 (by decide) rfl rfl, hZ.2.2.2.2.2.1 (by decide) rfl rfl,
    hZ.2.2.2.2.2.2 (by decide) rfl rfl⟩

/-- C9: on the unassigned path, a failing UUID lookup (or a failing decode of
its result) is silently treated as "no existing document": `Store` proceeds
to insert against every collection state, including states that do contain a
document with that UUID. -/
theorem Store_lookup_error_ignored (drv : Driver) (s : MongoState)
    (o : StoredObject) (u fe : String)
    (hfe : drv.findOneErr = some fe) (hins : drv.insertErr = none)
    (hdec : FromContractId o.ID = .ok (0, u)) :
    Store drv s o =
      (.ok (objectIdHex s.nextOid),
        ⟨s.docs ++ [(unassignedDoc u o).withOid s.nextOid], s.nextOid + 1⟩,
        [.findOneUuid u, .insertOne (unassignedDoc u o)]) := by
  refine Store_unassigned_insert drv s o u ?_ hins hdec
  unfold findOneDecode
  rw [hfe]

/-- C9 witness: with a failing lookup, storing a UUID already present in the
collection inserts a second document for that UUID instead of rejecting it. -/
theorem Store_lookup_error_ignored_witness :
    Store ⟨some "network down", none, none, none, none, none, none, none⟩
        ⟨[dA], 2⟩ oU =
      (.ok (objectIdHex 2),
        ⟨[dA, ⟨2, "u1", "svcA", [1, 2], 0, 0, "1", "", "", ""⟩], 3⟩,
        [.findOneUuid "u1", .insertOne (unassignedDoc "u1" oU)])
    ∧ ((⟨[dA, ⟨2, "u1", "svcA", [1, 2], 0, 0, "1", "", "", ""⟩], 3⟩ : MongoState).docs.filter
        (fun d => d.UUID == "u1")).length = 2 := by
  constructor
  · have h := Store_lookup_error_ignored
      ⟨some "network down", none, none, none, none, none, none, none⟩
      ⟨[dA], 2⟩ oU "u1" "network down" rfl rfl rfl
    simpa [dA, oU, unassignedDoc, BsonDoc.withOid] using h
  · decide

/-- C10: `UpdateRetryCount` and `RemoveFromStore` drop the UUID segment of a
composite identifier: two well-formed ids with the same opaque-id segment and
different UUID segments produce identical results, states, and driver calls
under every driver and collection state. -/
theorem uuid_segment_ignored (drv : Driver) (s : MongoState)
    (id1 id2 : String) (count : Int) (objID : Nat) (u1 u2 : String)
    (h1 : id1 ≠ "") (h2 : id2 ≠ "") (hu : u1 ≠ u2)
    (hd1 : FromContractId id1 = .ok (objID, u1))
    (hd2 : FromContractId id2 = .ok (objID, u2)) :
    UpdateRetryCount drv s id1 count = UpdateRetryCount drv s id2 count
    ∧ RemoveFromStore drv s id1 = RemoveFromStore drv s id2 := by
  constructor
  · unfold UpdateRetryCount
    rw [if_neg h1, if_neg h2, hd1, hd2]
  · unfold RemoveFromStore
    rw [if_neg h1, if_neg h2, hd1, hd2]

/-- C10 witness: the ids `1:aaa` and `1:bbb` are interchangeable for both
operations on a one-document collection. -/
theorem uuid_segment_ignored_witness :
    UpdateRetryCount Driver.ok ⟨[dA], 2⟩ "1:aaa" 3 =
      UpdateRetryCount Driver.ok ⟨[dA], 2⟩ "1:bbb" 3
    ∧ RemoveFromStore Driver.ok ⟨[dA], 2⟩ "1:aaa" =
      RemoveFromStore Driver.ok ⟨[dA], 2⟩ "1:bbb" :=
  uuid_segment_ignored Driver.ok ⟨[dA], 2⟩ "1:aaa" "1:bbb" 3 1 "aaa" "bbb"
    (by decide) (by decide) (by decide) rfl rfl

end StoreMongo
